import Mathlib

/-!
Shallow embedding of the wasm-interpreter repository (C++ sources under
src/) used to check the natural-language specification against the code.

Conventions used throughout:
* machine bytes are `Nat` values in `[0, 256)`;
* `uint32_t` arithmetic is `Nat` arithmetic reduced `% 2^32` at the points
  where the C++ performs 32-bit operations;
* C++ exceptions are modelled with `Except Err`; the constructor of `Err`
  records which C++ exception class was thrown (`DecoderError`,
  `InterpreterError`, `Trap`, `StackError`, `MemoryError`);
* `std::vector` stacks (`Stack::stack_`, `Interpreter::labels_`) are Lean
  lists whose HEAD is the vector's BACK (top of stack);
* IEEE floats are modelled by `Fp`: NaN, signed infinities and finite
  values as exact rationals.  The trunc/saturation code performs no
  rounding arithmetic - only comparisons against constants and truncation
  toward zero - so this model is exact on these code paths.
-/

namespace WasmI

/-- Error kinds mirroring the C++ exception classes thrown by the code:
`DecoderError` (decoder.h), `InterpreterError` and `Trap` (interpreter.h),
`StackError` (stack.h), `MemoryError` (memory.h). -/
inductive Err where
  | decoderError (msg : String)
  | interpreterError (msg : String)
  | trap (msg : String)
  | stackError (msg : String)
  | memoryError (msg : String)
deriving DecidableEq, Repr

/-- True exactly for the `Trap` kind (a defined WebAssembly runtime error,
as opposed to the interpreter-internal kinds). -/
def Err.isTrap : Err → Bool
  | .trap _ => true
  | _ => false

/-- Decidable equality for `Except` results, used to evaluate the modelled
operations at concrete inputs. -/
instance instDecEqExcept {ε α : Type} [DecidableEq ε] [DecidableEq α] :
    DecidableEq (Except ε α) := fun x y =>
  match x, y with
  | .ok a, .ok b =>
    if h : a = b then .isTrue (congrArg Except.ok h)
    else .isFalse (fun hc => h (Except.ok.inj hc))
  | .error e, .error f =>
    if h : e = f then .isTrue (congrArg Except.error h)
    else .isFalse (fun hc => h (Except.error.inj hc))
  | .ok _, .error _ => .isFalse (fun hc => Except.noConfusion hc)
  | .error _, .ok _ => .isFalse (fun hc => Except.noConfusion hc)

/-- Value types, types.h `enum class ValueType`. -/
inductive ValueType where
  | I32
  | I64
  | F32
  | F64
  | VOID
deriving DecidableEq, Repr

/-- Model of an IEEE floating-point datum as seen by the conversion code:
a NaN, a signed infinity, or a finite value given as the exact rational it
denotes.  The conversion code only tests `std::isnan` / `std::isinf`,
compares against constants and truncates toward zero, all of which are
exact operations on this domain. -/
inductive Fp where
  | NaN
  | Inf (neg : Bool)
  | Fin (q : ℚ)
deriving DecidableEq, Repr

/-- Result of `std::isnan`. -/
def Fp.isNaN : Fp → Bool
  | .NaN => true
  | _ => false

/-- Result of `std::isinf`. -/
def Fp.isInf : Fp → Bool
  | .Inf _ => true
  | _ => false

/-- IEEE comparison `a >= c` against a finite constant `c`: false for NaN,
true for +inf, false for -inf, exact rational comparison otherwise. -/
def Fp.fge (a : Fp) (c : ℚ) : Bool :=
  match a with
  | .NaN => false
  | .Inf neg => !neg
  | .Fin q => decide (c ≤ q)

/-- IEEE comparison `a <= c` against a finite constant `c`. -/
def Fp.fle (a : Fp) (c : ℚ) : Bool :=
  match a with
  | .NaN => false
  | .Inf neg => neg
  | .Fin q => decide (q ≤ c)

/-- IEEE comparison `a < c` against a finite constant `c`. -/
def Fp.flt (a : Fp) (c : ℚ) : Bool :=
  match a with
  | .NaN => false
  | .Inf neg => neg
  | .Fin q => decide (q < c)

/-- Truncation toward zero of a rational, the exact semantics of
`std::trunc` on a finite value. -/
def truncZ (q : ℚ) : ℤ :=
  if 0 ≤ q then ⌊q⌋ else ⌈q⌉

/-- Result of `std::trunc` (interpreter.cpp conversion cases): identity on
NaN and infinities, truncation toward zero on finite values. -/
def Fp.ftrunc : Fp → Fp
  | .NaN => .NaN
  | .Inf n => .Inf n
  | .Fin q => .Fin (truncZ q)

/-- Tagged value, types.h `struct TypedValue`.  The C++ representation is a
tag plus a 64-bit union; every read in the modelled code checks the tag
before reading the matching union field, so a per-tag payload is an exact
model of the observable behaviour. -/
inductive TypedValue where
  | i32 (v : ℤ)
  | i64 (v : ℤ)
  | f32 (v : Fp)
  | f64 (v : Fp)
deriving DecidableEq, Repr

/-- Tag of a `TypedValue` (the `type` field). -/
def TypedValue.type : TypedValue → ValueType
  | .i32 _ => .I32
  | .i64 _ => .I64
  | .f32 _ => .F32
  | .f64 _ => .F64

/-- Zero-initialised `TypedValue` of a declared local's type
(interpreter.cpp:266-272 sets `val.type` and `val.value.i64 = 0`; the
all-zero payload reads as integer 0 or +0.0 under every tag). -/
def TypedValue.zeroOf : ValueType → TypedValue
  | .I32 => .i32 0
  | .I64 => .i64 0
  | .F32 => .f32 (.Fin 0)
  | .F64 => .f64 (.Fin 0)
  | .VOID => .i32 0

/-! ## Operand stack (stack.cpp)

`Stack::stack_` is a `std::vector<TypedValue>`; we represent it as a list
whose head is the vector's back (the top of the stack).  The typed pops
throw `StackError` by C++ exception; an exception leaves the object state
as it was at the throw point, so each pop is modelled as a function
returning the result of the call TOGETHER with the vector contents when
control leaves the function (normally or by exception). -/

/-- Mirror of `Stack::checkNotEmpty` (stack.cpp:102-106). -/
def Stack.checkNotEmpty (s : List TypedValue) : Except Err Unit :=
  if s.isEmpty then .error (.stackError "Stack underflow") else .ok ()

/-- Mirror of `Stack::checkType` (stack.cpp:108-113); reads
`stack_.back()`, so it is only called on a non-empty stack. -/
def Stack.checkType (s : List TypedValue) (expected : ValueType) : Except Err Unit :=
  match s with
  | [] => .ok ()
  | v :: _ =>
    if v.type = expected then .ok ()
    else .error (.stackError "Type mismatch")

/-- Mirror of `Stack::popI32` (stack.cpp:29-35): `checkNotEmpty();
checkType(I32); val = back(); pop_back(); return val.i32`.  The second
component is the stack contents when the function exits (unchanged when an
exception is thrown, since both checks precede the `pop_back`). -/
def Stack.popI32 (s : List TypedValue) : Except Err ℤ × List TypedValue :=
  match Stack.checkNotEmpty s with
  | .error e => (.error e, s)
  | .ok _ =>
    match Stack.checkType s .I32 with
    | .error e => (.error e, s)
    | .ok _ =>
      match s with
      | .i32 v :: rest => (.ok v, rest)
      | _ => (.error (.stackError "Type mismatch"), s)

/-- Mirror of `Stack::popI64` (stack.cpp:37-43). -/
def Stack.popI64 (s : List TypedValue) : Except Err ℤ × List TypedValue :=
  match Stack.checkNotEmpty s with
  | .error e => (.error e, s)
  | .ok _ =>
    match Stack.checkType s .I64 with
    | .error e => (.error e, s)
    | .ok _ =>
      match s with
      | .i64 v :: rest => (.ok v, rest)
      | _ => (.error (.stackError "Type mismatch"), s)

/-- Mirror of `Stack::popF32` (stack.cpp:45-51). -/
def Stack.popF32 (s : List TypedValue) : Except Err Fp × List TypedValue :=
  match Stack.checkNotEmpty s with
  | .error e => (.error e, s)
  | .ok _ =>
    match Stack.checkType s .F32 with
    | .error e => (.error e, s)
    | .ok _ =>
      match s with
      | .f32 v :: rest => (.ok v, rest)
      | _ => (.error (.stackError "Type mismatch"), s)

/-- Mirror of `Stack::popF64` (stack.cpp:53-59). -/
def Stack.popF64 (s : List TypedValue) : Except Err Fp × List TypedValue :=
  match Stack.checkNotEmpty s with
  | .error e => (.error e, s)
  | .ok _ =>
    match Stack.checkType s .F64 with
    | .error e => (.error e, s)
    | .ok _ =>
      match s with
      | .f64 v :: rest => (.ok v, rest)
      | _ => (.error (.stackError "Type mismatch"), s)

/-- Mirror of the untyped `Stack::pop` (stack.cpp:61-66). -/
def Stack.pop (s : List TypedValue) : Except Err TypedValue × List TypedValue :=
  match Stack.checkNotEmpty s with
  | .error e => (.error e, s)
  | .ok _ =>
    match s with
    | v :: rest => (.ok v, rest)
    | [] => (.error (.stackError "Stack underflow"), s)

/-- True when an `Except` result is an error. -/
def isErr {α : Type} : Except Err α → Bool
  | .error _ => true
  | .ok _ => false

/-! ## Globals (interpreter.cpp:2061-2071) -/

/-- Global declaration, module.h `struct Global` (the `init_expr` bytecode
is not needed by the claims about `setGlobal`). -/
structure Global where
  type : ValueType
  is_mutable : Bool
deriving DecidableEq, Repr

/-- Mirror of `Interpreter::setGlobal` (interpreter.cpp:2061-2071):
index check against `globals_.size()`, then mutability check against
`module_->globals[index].is_mutable`, then assignment.  Both checks throw
`InterpreterError`; the second component is the `globals_` vector when
control leaves the function (unchanged when an exception is thrown, since
both checks precede the assignment). -/
def Interpreter.setGlobal (modGlobals : List Global) (globals : List TypedValue)
    (index : ℕ) (value : TypedValue) : Except Err Unit × List TypedValue :=
  if index ≥ globals.length then
    (.error (.interpreterError "Global index out of bounds"), globals)
  else
    match modGlobals[index]? with
    | some g =>
      if !g.is_mutable then
        (.error (.interpreterError "Attempting to modify immutable global"), globals)
      else
        (.ok (), globals.set index value)
    | none =>
      -- `module_->globals[index]` with `index < globals_.size()` but
      -- `index >= module_->globals.size()` is out-of-bounds vector access
      -- (UB); after `initializeGlobals` the two vectors have equal length,
      -- so this case is unreachable in the modelled executions.
      (.error (.interpreterError "Attempting to modify immutable global"), globals)

/-! ## Linear memory (memory.cpp)

`data_` is a `std::vector<uint8_t>`; bytes are `Nat` values.  The page
count and `delta` are `uint32_t`.  The size computation
`current_pages_ * PAGE_SIZE` in the constructor (memory.cpp:20) and in
`grow` (memory.cpp:124) multiplies two `uint32_t` operands, so it is
performed modulo 2^32 before the result reaches `std::vector::resize`. -/

/-- Limits, types.h `struct Limits`. -/
structure Limits where
  min : ℕ
  max : ℕ
  has_max : Bool
deriving DecidableEq, Repr

/-- Page size constant, memory.h:26. -/
def Memory.PAGE_SIZE : ℕ := 65536

/-- Hard page limit, memory.h:27. -/
def Memory.MAX_PAGES : ℕ := 65536

/-- Memory instance state: byte contents, retained limits, current page
count (memory.h:92-95). -/
structure Memory where
  data : List ℕ
  limits : Limits
  current_pages : ℕ
deriving DecidableEq, Repr

/-- Mirror of `std::vector::resize(n, 0)`: truncate or extend with zero
fill. -/
def resizeZ (l : List ℕ) (n : ℕ) : List ℕ :=
  if n ≤ l.length then l.take n
  else l ++ List.replicate (n - l.length) 0

/-- Mirror of the `Memory(const Limits&)` constructor (memory.cpp:7-21).
The data vector is resized to `current_pages_ * PAGE_SIZE` computed in
`uint32_t` arithmetic, i.e. modulo 2^32. -/
def Memory.ofLimits (limits : Limits) : Except Err Memory :=
  if limits.min > Memory.MAX_PAGES then
    .error (.memoryError "Initial memory size exceeds maximum")
  else if limits.has_max ∧ limits.max > Memory.MAX_PAGES then
    .error (.memoryError "Maximum memory size exceeds limit")
  else if limits.has_max ∧ limits.min > limits.max then
    .error (.memoryError "Initial size exceeds maximum size")
  else
    .ok { data := List.replicate (limits.min * Memory.PAGE_SIZE % 2 ^ 32) 0
          limits := limits
          current_pages := limits.min }

/-- Mirror of `Memory::grow` (memory.cpp:101-127).  `delta` is a
`uint32_t` argument; `new_pages = current_pages_ + delta` is a `uint32_t`
sum (modulo 2^32), the overflow check compares it with `current_pages_`,
and on success the data vector is resized to `current_pages_ * PAGE_SIZE`
computed in `uint32_t` arithmetic.  Returns the `int32_t` result together
with the memory state. -/
def Memory.grow (delta : ℕ) (m : Memory) : ℤ × Memory :=
  if delta = 0 then
    ((m.current_pages : ℤ), m)
  else
    let new_pages := (m.current_pages + delta) % 2 ^ 32
    if new_pages < m.current_pages then
      (-1, m)
    else if new_pages > Memory.MAX_PAGES then
      (-1, m)
    else if m.limits.has_max ∧ new_pages > m.limits.max then
      (-1, m)
    else
      ((m.current_pages : ℤ),
       { m with
         current_pages := new_pages
         data := resizeZ m.data (new_pages * Memory.PAGE_SIZE % 2 ^ 32) })

/-- Mirror of `Memory::checkAddress` (memory.cpp:143-147) followed by the
single-byte read of `Memory::loadU8`. -/
def Memory.loadU8 (m : Memory) (address : ℕ) : Except Err ℕ :=
  if address + 1 > m.data.length then
    .error (.memoryError "Memory access out of bounds")
  else
    .ok (m.data.getD address 0)

/-- Mirror of `Memory::initialize` (memory.cpp:129-135). -/
def Memory.initialize (m : Memory) (offset : ℕ) (bytes : List ℕ) :
    Except Err Memory :=
  if offset + bytes.length > m.data.length then
    .error (.memoryError "Data segment out of bounds")
  else
    .ok { m with
          data := m.data.take offset ++ bytes ++
                  m.data.drop (offset + bytes.length) }

/-! ## Decoder LEB128 codecs (decoder.cpp:474-560)

The decoder state is a byte buffer plus a cursor position.  `formatError`
prefixes messages with the byte offset; the offset text is immaterial to
the claims, so messages are modelled without it.

In `readVarInt32` the expression `(byte & 0x7F) << shift` shifts a 32-bit
`int`; once `shift` reaches 32 (and already at `shift = 28` for large data
bits) the C++ shift is undefined behaviour.  `shl32` models the value as
the conventional two's-complement low bits for `shift < 32` and as 0
otherwise; the theorems below evaluate these readers only at inputs whose
data bits are all zero, where every possible compiled behaviour produces
the same result.  `shl64` is its 64-bit analogue. -/

/-- Left shift producing the low 32 bits, 0 once the shift amount makes
the C++ expression undefined. -/
def shl32 (x shift : ℕ) : ℕ :=
  if shift < 32 then (x <<< shift) % 2 ^ 32 else 0

/-- Left shift producing the low 64 bits, 0 once the shift amount makes
the C++ expression undefined. -/
def shl64 (x shift : ℕ) : ℕ :=
  if shift < 64 then (x <<< shift) % 2 ^ 64 else 0

/-- Two's-complement reading of a `uint32_t` bit pattern as `int32_t`. -/
def toInt32 (n : ℕ) : ℤ :=
  if n % 2 ^ 32 < 2 ^ 31 then (n % 2 ^ 32 : ℤ) else (n % 2 ^ 32 : ℤ) - 2 ^ 32

/-- Two's-complement reading of a `uint64_t` bit pattern as `int64_t`. -/
def toInt64 (n : ℕ) : ℤ :=
  if n % 2 ^ 64 < 2 ^ 63 then (n % 2 ^ 64 : ℤ) else (n % 2 ^ 64 : ℤ) - 2 ^ 64

/-- Mirror of `Decoder::readByte` (decoder.cpp:403-406): `ensureBytes(1)`
then return the byte and advance the cursor. -/
def Decoder.readByte (buf : List ℕ) (pos : ℕ) : Except Err (ℕ × ℕ) :=
  if pos + 1 > buf.length then .error (.decoderError "Unexpected end of file")
  else .ok (buf.getD pos 0, pos + 1)

/-- Loop of `Decoder::readVarUint32` (decoder.cpp:474-496), recursing on
the unread suffix of the buffer (`readByte`'s bounds check is the empty
case); `pos` tracks the cursor for the returned position.  The
accumulator is the `uint32_t` `result`.  After accumulating a byte with
the continuation bit set, `shift` is advanced and the `shift >= 35`
over-length check errors out before another byte is read. -/
def Decoder.readVarUint32Aux : List ℕ → ℕ → ℕ → ℕ → Except Err (ℕ × ℕ)
  | [], _, _, _ => .error (.decoderError "Unexpected end of file")
  | byte :: rest, result, shift, pos =>
    let result1 := (result ||| shl32 (byte % 128) shift) % 2 ^ 32
    if byte.testBit 7 then
      if shift + 7 ≥ 35 then
        .error (.decoderError "Invalid LEB128 unsigned encoding (too many bytes)")
      else
        Decoder.readVarUint32Aux rest result1 (shift + 7) (pos + 1)
    else
      .ok (result1, pos + 1)

/-- Mirror of `Decoder::readVarUint32`: value together with the cursor
position after the read. -/
def Decoder.readVarUint32 (buf : List ℕ) (pos : ℕ) : Except Err (ℕ × ℕ) :=
  Decoder.readVarUint32Aux (buf.drop pos) 0 0 pos

/-- Loop of `Decoder::readVarUint64` (decoder.cpp:498-520); the data bits
are widened to `uint64_t` before the shift, and the over-length check is
`shift >= 70`. -/
def Decoder.readVarUint64Aux : List ℕ → ℕ → ℕ → ℕ → Except Err (ℕ × ℕ)
  | [], _, _, _ => .error (.decoderError "Unexpected end of file")
  | byte :: rest, result, shift, pos =>
    let result1 := (result ||| ((byte % 128) <<< shift)) % 2 ^ 64
    if byte.testBit 7 then
      if shift + 7 ≥ 70 then
        .error (.decoderError "Invalid LEB128 unsigned encoding (too many bytes)")
      else
        Decoder.readVarUint64Aux rest result1 (shift + 7) (pos + 1)
    else
      .ok (result1, pos + 1)

/-- Mirror of `Decoder::readVarUint64`. -/
def Decoder.readVarUint64 (buf : List ℕ) (pos : ℕ) : Except Err (ℕ × ℕ) :=
  Decoder.readVarUint64Aux (buf.drop pos) 0 0 pos

/-- Loop of `Decoder::readVarInt32` (decoder.cpp:522-540).  The do-while
has NO over-length check: it stops only when a byte without the
continuation bit arrives, or when `readByte` hits the end of the buffer.
Returns (accumulator bits, final shift, last byte, cursor). -/
def Decoder.readVarInt32Aux : List ℕ → ℕ → ℕ → ℕ → Except Err (ℕ × ℕ × ℕ × ℕ)
  | [], _, _, _ => .error (.decoderError "Unexpected end of file")
  | byte :: rest, result, shift, pos =>
    let result1 := (result ||| shl32 (byte % 128) shift) % 2 ^ 32
    if byte.testBit 7 then
      Decoder.readVarInt32Aux rest result1 (shift + 7) (pos + 1)
    else
      .ok (result1, shift + 7, byte, pos + 1)

/-- Mirror of `Decoder::readVarInt32`: after the loop, if `shift < 32` and
bit 6 of the final byte is set, the bits `-(1 << shift)` (pattern
`2^32 - 2^shift`) are or-ed in; the `int32_t` value is returned with the
final cursor position. -/
def Decoder.readVarInt32 (buf : List ℕ) (pos : ℕ) : Except Err (ℤ × ℕ) :=
  match Decoder.readVarInt32Aux (buf.drop pos) 0 0 pos with
  | .error e => .error e
  | .ok (res, shift, byte, pos1) =>
    let res1 := if shift < 32 ∧ byte.testBit 6
                then (res ||| (2 ^ 32 - 2 ^ shift)) % 2 ^ 32 else res
    .ok (toInt32 res1, pos1)

/-- Loop of `Decoder::readVarInt64` (decoder.cpp:542-560), also without an
over-length check. -/
def Decoder.readVarInt64Aux : List ℕ → ℕ → ℕ → ℕ → Except Err (ℕ × ℕ × ℕ × ℕ)
  | [], _, _, _ => .error (.decoderError "Unexpected end of file")
  | byte :: rest, result, shift, pos =>
    let result1 := (result ||| shl64 (byte % 128) shift) % 2 ^ 64
    if byte.testBit 7 then
      Decoder.readVarInt64Aux rest result1 (shift + 7) (pos + 1)
    else
      .ok (result1, shift + 7, byte, pos + 1)

/-- Mirror of `Decoder::readVarInt64`. -/
def Decoder.readVarInt64 (buf : List ℕ) (pos : ℕ) : Except Err (ℤ × ℕ) :=
  match Decoder.readVarInt64Aux (buf.drop pos) 0 0 pos with
  | .error e => .error e
  | .ok (res, shift, byte, pos1) =>
    let res1 := if shift < 64 ∧ byte.testBit 6
                then (res ||| (2 ^ 64 - 2 ^ shift)) % 2 ^ 64 else res
    .ok (toInt64 res1, pos1)

/-! ## Structured labels and `Interpreter::branch` (interpreter.cpp:2092-2125) -/

/-- Label record, interpreter.h:101-106. -/
structure Label where
  target_pc : ℕ
  stack_height : ℕ
  is_loop : Bool
  arity : ℕ
deriving DecidableEq, Repr

/-- The state touched by `Interpreter::branch`: program counter, operand
stack and label stack.  Lists hold the vector back (innermost) at the
head. -/
structure BState where
  pc : ℕ
  stack : List TypedValue
  labels : List Label
deriving DecidableEq, Repr

/-- Mirror of `Interpreter::branch`.  In vector terms the target is
`labels_[labels_.size() - 1 - depth]`, which is index `depth` from the
head here.  The while-loop pops operand-stack entries from the top until
the height is at most `stack_height + arity`; `erase(begin + label_index,
end)` keeps the bottom `label_index` labels (drop `depth + 1` from the
head) and the loop variant keeps one more (drop `depth`). -/
def Interpreter.branch (depth : ℕ) (s : BState) : Except Err BState :=
  match s.labels[depth]? with
  | none => .error (.interpreterError "Branch depth out of range")
  | some lab =>
    let target_height := lab.stack_height + lab.arity
    .ok { pc := lab.target_pc
          stack := s.stack.drop (s.stack.length - target_height)
          labels := if lab.is_loop then s.labels.drop depth
                    else s.labels.drop (depth + 1) }

/-! ## Float-to-integer conversions (interpreter.cpp:1754-1832, 1916-2037)

A C++ `static_cast` from a floating value to an integer type truncates
toward zero and is undefined behaviour when the truncated value is not
representable in the destination type (also for NaN and infinities).
`CastResult.ub` records exactly those undefined outcomes.  The
conversion of an in-range `uint32_t`/`uint64_t` value to the signed type
of the same width (used by `pushI32`/`pushI64` in the `_u` cases) is the
conventional two's-complement rewrap. -/

/-- Outcome of a C++ float-to-integer `static_cast`: a defined integer, or
undefined behaviour. -/
inductive CastResult where
  | val (z : ℤ)
  | ub
deriving DecidableEq, Repr

/-- True when the cast produced a defined value. -/
def CastResult.isVal : CastResult → Bool
  | .val _ => true
  | .ub => false

/-- Semantics of `static_cast<int32_t>` applied to a floating value. -/
def castToI32 : Fp → CastResult
  | .Fin q =>
    let t := truncZ q
    if -(2 ^ 31) ≤ t ∧ t < 2 ^ 31 then .val t else .ub
  | _ => .ub

/-- Semantics of `static_cast<int32_t>(static_cast<uint32_t>(x))` applied
to a floating value: the float-to-unsigned cast is defined for truncated
values in `[0, 2^32)`, and the result is rewrapped as `int32_t`. -/
def castToU32AsI32 : Fp → CastResult
  | .Fin q =>
    let t := truncZ q
    if 0 ≤ t ∧ t < 2 ^ 32 then .val (toInt32 t.toNat) else .ub
  | _ => .ub

/-- Semantics of `static_cast<int64_t>` applied to a floating value. -/
def castToI64 : Fp → CastResult
  | .Fin q =>
    let t := truncZ q
    if -(2 ^ 63) ≤ t ∧ t < 2 ^ 63 then .val t else .ub
  | _ => .ub

/-- Semantics of `static_cast<int64_t>(static_cast<uint64_t>(x))` applied
to a floating value. -/
def castToU64AsI64 : Fp → CastResult
  | .Fin q =>
    let t := truncZ q
    if 0 ≤ t ∧ t < 2 ^ 64 then .val (toInt64 t.toNat) else .ub
  | _ => .ub

/-- Mirror of the `I32_TRUNC_F32_S` case (interpreter.cpp:1754-1762): trap
on NaN or infinity, otherwise `static_cast<int32_t>(std::trunc(a))` with
no range check of any kind. -/
def i32TruncF32S (a : Fp) : Except Err CastResult :=
  if a.isNaN || a.isInf then .error (.trap "Invalid conversion: f32 to i32")
  else .ok (castToI32 a.ftrunc)

/-- Mirror of the `I32_TRUNC_F32_U` case (interpreter.cpp:1764-1772): trap
on NaN, infinity or `a < 0.0f`; no upper range check. -/
def i32TruncF32U (a : Fp) : Except Err CastResult :=
  if a.isNaN || a.isInf || a.flt 0 then .error (.trap "Invalid conversion: f32 to u32")
  else .ok (castToU32AsI32 a.ftrunc)

/-- Mirror of the `I32_TRUNC_F64_S` case (interpreter.cpp:1774-1782). -/
def i32TruncF64S (a : Fp) : Except Err CastResult :=
  if a.isNaN || a.isInf then .error (.trap "Invalid conversion: f64 to i32")
  else .ok (castToI32 a.ftrunc)

/-- Mirror of the `I32_TRUNC_F64_U` case (interpreter.cpp:1784-1792). -/
def i32TruncF64U (a : Fp) : Except Err CastResult :=
  if a.isNaN || a.isInf || a.flt 0 then .error (.trap "Invalid conversion: f64 to u32")
  else .ok (castToU32AsI32 a.ftrunc)

/-- Mirror of the `I64_TRUNC_F32_S` case (interpreter.cpp:1794-1802). -/
def i64TruncF32S (a : Fp) : Except Err CastResult :=
  if a.isNaN || a.isInf then .error (.trap "Invalid conversion: f32 to i64")
  else .ok (castToI64 a.ftrunc)

/-- Mirror of the `I64_TRUNC_F32_U` case (interpreter.cpp:1804-1812). -/
def i64TruncF32U (a : Fp) : Except Err CastResult :=
  if a.isNaN || a.isInf || a.flt 0 then .error (.trap "Invalid conversion: f32 to u64")
  else .ok (castToU64AsI64 a.ftrunc)

/-- Mirror of the `I64_TRUNC_F64_S` case (interpreter.cpp:1814-1822). -/
def i64TruncF64S (a : Fp) : Except Err CastResult :=
  if a.isNaN || a.isInf then .error (.trap "Invalid conversion: f64 to i64")
  else .ok (castToI64 a.ftrunc)

/-- Mirror of the `I64_TRUNC_F64_U` case (interpreter.cpp:1824-1832). -/
def i64TruncF64U (a : Fp) : Except Err CastResult :=
  if a.isNaN || a.isInf || a.flt 0 then .error (.trap "Invalid conversion: f64 to u64")
  else .ok (castToU64AsI64 a.ftrunc)

/-! ## Saturating conversions, 0xFC sub-opcodes 0x00..0x07
(interpreter.cpp:1916-2037)

The source literal `-2147483649.0f` rounds to the `float` value `-2^31`
when compiled, and `-9223372036854775809.0` rounds to the `double` value
`-2^63`; on every argument the branch reached and the value produced are
the same under either reading of the constant, so the definitions use the
rationals written in the source text.  All the other guard constants are
exactly representable in the comparison type. -/

/-- Mirror of sub-opcode 0x00, `i32.trunc_sat_f32_s`. -/
def i32TruncSatF32S (a : Fp) : CastResult :=
  if a.isNaN then .val 0
  else if a.fge 2147483648 then .val 2147483647
  else if a.fle (-2147483649) then .val (-2147483648)
  else castToI32 a.ftrunc

/-- Mirror of sub-opcode 0x01, `i32.trunc_sat_f32_u`. -/
def i32TruncSatF32U (a : Fp) : CastResult :=
  if a.isNaN then .val 0
  else if a.fge 4294967296 then .val (-1)
  else if a.fle (-1) then .val 0
  else castToU32AsI32 a.ftrunc

/-- Mirror of sub-opcode 0x02, `i32.trunc_sat_f64_s`. -/
def i32TruncSatF64S (a : Fp) : CastResult :=
  if a.isNaN then .val 0
  else if a.fge 2147483648 then .val 2147483647
  else if a.fle (-2147483649) then .val (-2147483648)
  else castToI32 a.ftrunc

/-- Mirror of sub-opcode 0x03, `i32.trunc_sat_f64_u`. -/
def i32TruncSatF64U (a : Fp) : CastResult :=
  if a.isNaN then .val 0
  else if a.fge 4294967296 then .val (-1)
  else if a.fle (-1) then .val 0
  else castToU32AsI32 a.ftrunc

/-- Mirror of sub-opcode 0x04, `i64.trunc_sat_f32_s`. -/
def i64TruncSatF32S (a : Fp) : CastResult :=
  if a.isNaN then .val 0
  else if a.fge 9223372036854775808 then .val 9223372036854775807
  else if a.fle (-9223372036854775809) then .val (-9223372036854775808)
  else castToI64 a.ftrunc

/-- Mirror of sub-opcode 0x05, `i64.trunc_sat_f32_u`. -/
def i64TruncSatF32U (a : Fp) : CastResult :=
  if a.isNaN then .val 0
  else if a.fge 18446744073709551616 then .val (-1)
  else if a.fle (-1) then .val 0
  else castToU64AsI64 a.ftrunc

/-- Mirror of sub-opcode 0x06, `i64.trunc_sat_f64_s`. -/
def i64TruncSatF64S (a : Fp) : CastResult :=
  if a.isNaN then .val 0
  else if a.fge 9223372036854775808 then .val 9223372036854775807
  else if a.fle (-9223372036854775809) then .val (-9223372036854775808)
  else castToI64 a.ftrunc

/-- Mirror of sub-opcode 0x07, `i64.trunc_sat_f64_u`. -/
def i64TruncSatF64U (a : Fp) : CastResult :=
  if a.isNaN then .val 0
  else if a.fge 18446744073709551616 then .val (-1)
  else if a.fle (-1) then .val 0
  else castToU64AsI64 a.ftrunc

/-! ## Module representation (module.h / module.cpp) -/

/-- External kinds, module.h:60-65. -/
inductive ExternalKind where
  | FUNCTION
  | TABLE
  | MEMORY
  | GLOBAL
deriving DecidableEq, Repr

/-- Function signature, types.h `struct FuncType`. -/
structure FuncType where
  params : List ValueType
  results : List ValueType
deriving DecidableEq, Repr

/-- Function body, module.h `struct Function` (the type index lives in the
module's `function_types` vector, which is what `getFunctionType`
consults). -/
structure Function where
  locals : List ValueType
  body : List ℕ
deriving DecidableEq, Repr

/-- Import entry, module.h `struct Import` (the kind-specific payloads are
not consulted by the modelled code paths). -/
structure Import where
  module_name : String
  field_name : String
  kind : ExternalKind
deriving DecidableEq, Repr

/-- Element segment, module.h `struct ElementSegment`. -/
structure ElemSegment where
  table_index : ℕ
  offset_expr : List ℕ
  func_indices : List ℕ
deriving DecidableEq, Repr

/-- The module fields consulted by the executor code modelled here. -/
structure Module where
  types : List FuncType
  functions : List Function
  function_types : List ℕ
  imports : List Import
  element_segments : List ElemSegment
deriving DecidableEq, Repr

/-- Mirror of `Module::getImportedFunctionCount` (module.cpp:38-46). -/
def Module.importedFunctionCount (m : Module) : ℕ :=
  (m.imports.filter (fun i => i.kind = .FUNCTION)).length

/-- Mirror of `Module::getFunctionType` (module.cpp:5-27). -/
def Module.getFunctionType (m : Module) (func_index : ℕ) : Option FuncType :=
  let import_count := m.importedFunctionCount
  if func_index < import_count then none
  else
    match m.function_types[func_index - import_count]? with
    | none => none
    | some type_index => m.types[type_index]?

/-! ## Executor state and the call machinery (interpreter.cpp:225-316,
481-613)

The interpreter members that participate in calls: the shared operand
stack `stack_` and globals `globals_`, and the per-frame `locals_`,
`code_` (with its length), `pc_` and `labels_`.  The `CALL` and
`CALL_INDIRECT` cases copy the per-frame members into local variables,
run `execute(func_index)` to completion, and copy them back; the operand
stack and globals are never saved.

`Interpreter::execute` recurses natively through the C++ call stack; the
member `call_stack_` (a `CallStack` with `MAX_DEPTH = 1024`) is declared
in interpreter.h:76 but no interpreter code ever pushes to it.  The
embedding makes the recursion explicit with a fuel parameter: `Res.fuelOut`
means the execution was still running after `fuel` nested steps - it is
NOT an error of the modelled program, merely the horizon of observation.

Only the opcodes exercised by the claims are dispatched
(`unreachable`, `nop`, `end`, `call`, `call_indirect`, `i32.const`);
every other byte takes the default `InterpreterError` path, standing in
for the remaining cases of `executeInstruction`, none of which performs a
call or touches the saved frame fields in a way the claims examine. -/

/-- Per-instance execution state: shared operand stack and globals, plus
the current frame's locals, bytecode, program counter and label stack. -/
structure IState where
  stack : List TypedValue
  globals : List TypedValue
  locals : List TypedValue
  code : List ℕ
  pc : ℕ
  labels : List Label
deriving DecidableEq, Repr

/-- Outcome of running the embedded executor with a fixed fuel budget. -/
inductive Res where
  | ok (s : IState)
  | err (e : Err)
  | fuelOut
  | hostEffect
deriving DecidableEq, Repr

/-- Mirror of `Interpreter::readByte` (interpreter.cpp:2262-2267) on the
current function's bytecode. -/
def Interpreter.readByte (code : List ℕ) (pc : ℕ) : Except Err (ℕ × ℕ) :=
  if pc ≥ code.length then .error (.interpreterError "Unexpected end of bytecode")
  else .ok (code.getD pc 0, pc + 1)

/-- Loop of `Interpreter::readVarUint32` (interpreter.cpp:2269-2285),
recursing on the unread bytecode suffix: unlike the decoder's reader, it
has NO over-length check; it stops only at a byte without the
continuation bit or at the end of the bytecode. -/
def Interpreter.readVarUint32Aux : List ℕ → ℕ → ℕ → ℕ → Except Err (ℕ × ℕ)
  | [], _, _, _ => .error (.interpreterError "Unexpected end of bytecode")
  | byte :: rest, result, shift, pc =>
    let result1 := (result ||| shl32 (byte % 128) shift) % 2 ^ 32
    if byte.testBit 7 then
      Interpreter.readVarUint32Aux rest result1 (shift + 7) (pc + 1)
    else
      .ok (result1, pc + 1)

/-- Mirror of `Interpreter::readVarUint32`. -/
def Interpreter.readVarUint32 (code : List ℕ) (pc : ℕ) : Except Err (ℕ × ℕ) :=
  Interpreter.readVarUint32Aux (code.drop pc) 0 0 pc

/-- Loop of `Interpreter::readVarInt32` (interpreter.cpp:2287-2303). -/
def Interpreter.readVarInt32Aux : List ℕ → ℕ → ℕ → ℕ → Except Err (ℕ × ℕ × ℕ × ℕ)
  | [], _, _, _ => .error (.interpreterError "Unexpected end of bytecode")
  | byte :: rest, result, shift, pc =>
    let result1 := (result ||| shl32 (byte % 128) shift) % 2 ^ 32
    if byte.testBit 7 then
      Interpreter.readVarInt32Aux rest result1 (shift + 7) (pc + 1)
    else
      .ok (result1, shift + 7, byte, pc + 1)

/-- Mirror of `Interpreter::readVarInt32`. -/
def Interpreter.readVarInt32 (code : List ℕ) (pc : ℕ) : Except Err (ℤ × ℕ) :=
  match Interpreter.readVarInt32Aux (code.drop pc) 0 0 pc with
  | .error e => .error e
  | .ok (res, shift, byte, pc1) =>
    let res1 := if shift < 32 ∧ byte.testBit 6
                then (res ||| (2 ^ 32 - 2 ^ shift)) % 2 ^ 32 else res
    .ok (toInt32 res1, pc1)

/-- Inline constant-expression evaluation in the `CALL_INDIRECT` case
(interpreter.cpp:538-545): a LEB128 run read from position 1 while
`pos < size - 1` (at least two bytes of the expression remain, the last
being reserved for the trailing `end`), with no sign extension.  The
recursion consumes the expression suffix. -/
def Interpreter.elemOffsetAux : List ℕ → ℕ → ℕ → ℕ
  | byte :: rest₂ :: rest, value, shift =>
    let value1 := (value ||| shl32 (byte % 128) shift) % 2 ^ 32
    if byte.testBit 7 then
      Interpreter.elemOffsetAux (rest₂ :: rest) value1 (shift + 7)
    else value1
  | _, value, _ => value

/-- Offset of an element segment as computed at interpreter.cpp:533-546:
zero unless the expression starts with `0x41` (`i32.const`). -/
def Interpreter.elemOffset (expr : List ℕ) : ℕ :=
  if expr.length ≠ 0 ∧ expr.getD 0 0 = 0x41 then
    Interpreter.elemOffsetAux (expr.drop 1) 0 0
  else 0

/-- Element-segment search of the `CALL_INDIRECT` case
(interpreter.cpp:530-556): first segment with `table_index == 0` whose
window contains the index wins; `actual_index` is the `uint32_t`
difference `elem_index - offset`. -/
def Interpreter.resolveElem (segs : List ElemSegment) (elem_index : ℕ) : Option ℕ :=
  match segs with
  | [] => none
  | seg :: rest =>
    if seg.table_index = 0 then
      let offset := Interpreter.elemOffset seg.offset_expr
      let actual := (elem_index + (2 ^ 32 - offset % 2 ^ 32)) % 2 ^ 32
      match seg.func_indices[actual]? with
      | some f => some f
      | none => Interpreter.resolveElem rest elem_index
    else Interpreter.resolveElem rest elem_index

/-- Signature check of the `CALL_INDIRECT` case (interpreter.cpp:562-586),
performed after the element has been resolved to `func_index`. -/
def Interpreter.checkIndirectType (mod : Module) (type_index func_index : ℕ) :
    Except Err Unit :=
  match mod.getFunctionType func_index with
  | none => .error (.trap "Type mismatch in call_indirect")
  | some ft =>
    match mod.types[type_index]? with
    | none => .error (.trap "Type mismatch in call_indirect")
    | some expected =>
      if ft.params.length ≠ expected.params.length ∨
         ft.results.length ≠ expected.results.length then
        .error (.trap "Indirect call signature mismatch")
      else if ft.params ≠ expected.params then
        .error (.trap "Indirect call parameter type mismatch")
      else if ft.results ≠ expected.results then
        .error (.trap "Indirect call result type mismatch")
      else .ok ()

/-- Frame setup of `Interpreter::execute` for a local function
(interpreter.cpp:243-279): resolve the function and its type, pop
`param_count` arguments from the operand stack in reverse order into the
front of the locals vector, zero-initialise the declared locals, and
start at `pc = 0` on the function body with an empty label stack. -/
def Interpreter.setupFrame (mod : Module) (func_index : ℕ)
    (stack globals : List TypedValue) : Except Err IState :=
  let import_count := mod.importedFunctionCount
  match mod.functions[func_index - import_count]? with
  | none => .error (.interpreterError "Invalid function index")
  | some func =>
    match mod.getFunctionType func_index with
    | none => .error (.interpreterError "Invalid function type")
    | some ft =>
      let param_count := ft.params.length
      if stack.length < param_count then
        .error (.stackError "Stack underflow")
      else
        .ok { stack := stack.drop param_count
              globals := globals
              locals := (stack.take param_count).reverse ++
                        func.locals.map TypedValue.zeroOf
              code := func.body
              pc := 0
              labels := [] }

mutual

/-- Mirror of `Interpreter::execute` (interpreter.cpp:225-284): the import
dispatch (`wasi_snapshot_preview1::fd_write` leaves the embedded fragment
as `Res.hostEffect`, any other import throws), then frame setup and the
instruction loop over the function body.  Note that nothing on this path
consults the `call_stack_` member or any nesting-depth counter. -/
def Interpreter.execute (mod : Module) :
    ℕ → ℕ → List TypedValue → List TypedValue → Res
  | 0, _, _, _ => .fuelOut
  | fuel + 1, func_index, stack, globals =>
    let import_count := mod.importedFunctionCount
    if func_index < import_count then
      match mod.imports[func_index]? with
      | some imp =>
        if imp.kind = .FUNCTION ∧ imp.module_name = "wasi_snapshot_preview1" ∧
           imp.field_name = "fd_write"
        then .hostEffect
        else .err (.interpreterError "Cannot execute imported function")
      | none => .err (.interpreterError "Cannot execute imported function")
    else
      match Interpreter.setupFrame mod func_index stack globals with
      | .error e => .err e
      | .ok st => Interpreter.execLoop mod fuel st

/-- The `while (pc_ < code_size_) executeInstruction();` loop of
`Interpreter::execute` (interpreter.cpp:281-283). -/
def Interpreter.execLoop (mod : Module) : ℕ → IState → Res
  | 0, _ => .fuelOut
  | fuel + 1, st =>
    if st.pc < st.code.length then
      match Interpreter.executeInstr mod fuel st with
      | .ok st1 => Interpreter.execLoop mod fuel st1
      | r => r
    else .ok st

/-- Mirror of `Interpreter::executeInstruction` (interpreter.cpp:286-316)
restricted to the opcodes the claims exercise; all other opcodes take the
final `InterpreterError` path.  The `CALL` case (interpreter.cpp:481-506)
reads the callee index, saves `pc_`, `code_`, `code_size_`, `locals_` and
`labels_` in locals, runs `execute(func_index)`, and restores them; the
`CALL_INDIRECT` case (interpreter.cpp:508-608) additionally pops the table
index, resolves it through the element segments and checks the signature
before the identically-structured save/run/restore. -/
def Interpreter.executeInstr (mod : Module) : ℕ → IState → Res
  | 0, _ => .fuelOut
  | fuel + 1, st =>
    if st.pc ≥ st.code.length then
      .err (.interpreterError "Program counter out of bounds")
    else
      let opcode := st.code.getD st.pc 0
      let pc1 := st.pc + 1
      if opcode = 0x00 then
        .err (.trap "Unreachable instruction executed")
      else if opcode = 0x01 then
        .ok { st with pc := pc1 }
      else if opcode = 0x0B then
        .ok { st with pc := pc1, labels := st.labels.tail }
      else if opcode = 0x10 then
        match Interpreter.readVarUint32 st.code pc1 with
        | .error e => .err e
        | .ok (func_index, return_pc) =>
          match Interpreter.execute mod fuel func_index st.stack st.globals with
          | .ok after =>
            .ok { stack := after.stack
                  globals := after.globals
                  locals := st.locals
                  code := st.code
                  pc := return_pc
                  labels := st.labels }
          | r => r
      else if opcode = 0x11 then
        match Interpreter.readVarUint32 st.code pc1 with
        | .error e => .err e
        | .ok (type_index, pcA) =>
          match Interpreter.readByte st.code pcA with
          | .error e => .err e
          | .ok (reserved, return_pc) =>
            if reserved ≠ 0x00 then
              .err (.interpreterError "Invalid table index in call_indirect")
            else
              match Stack.popI32 st.stack with
              | (.error e, _) => .err e
              | (.ok elem_index, stack1) =>
                if elem_index < 0 then
                  .err (.trap "Undefined element in call_indirect")
                else
                  match Interpreter.resolveElem mod.element_segments
                      elem_index.toNat with
                  | none => .err (.trap "Undefined element in call_indirect")
                  | some func_index =>
                    match Interpreter.checkIndirectType mod type_index
                        func_index with
                    | .error e => .err e
                    | .ok _ =>
                      match Interpreter.execute mod fuel func_index stack1
                          st.globals with
                      | .ok after =>
                        .ok { stack := after.stack
                              globals := after.globals
                              locals := st.locals
                              code := st.code
                              pc := return_pc
                              labels := st.labels }
                      | r => r
      else if opcode = 0x41 then
        match Interpreter.readVarInt32 st.code pc1 with
        | .error e => .err e
        | .ok (v, pc2) =>
          .ok { st with stack := .i32 v :: st.stack, pc := pc2 }
      else
        .err (.interpreterError "Unknown or unimplemented opcode")

end

/-! ## CallStack (stack.h:71-107, stack.cpp:149-181)

The call-stack class with the depth limit.  As noted above, the
interpreter declares a `CallStack call_stack_` member but never pushes a
frame onto it; these definitions model the class itself. -/

/-- Call frame record, stack.h:71-80. -/
structure CallFrame where
  function_index : ℕ
  return_pc : ℕ
  locals_base : ℕ
  stack_base : ℕ
deriving DecidableEq, Repr

/-- Depth limit, stack.h:100. -/
def CallStack.MAX_DEPTH : ℕ := 1024

/-- Mirror of `CallStack::push` (stack.cpp:149-152):
`checkDepthLimit()` throws once `frames_.size() >= MAX_DEPTH`, i.e. when a
1025th frame would be pushed. -/
def CallStack.push (frames : List CallFrame) (frame : CallFrame) :
    Except Err (List CallFrame) :=
  if frames.length ≥ CallStack.MAX_DEPTH then
    .error (.stackError "Call stack overflow: maximum depth exceeded")
  else
    .ok (frame :: frames)

/-- True when an `Except` result is specifically a `Trap`. -/
def exceptIsTrap {α : Type} : Except Err α → Bool
  | .error e => e.isTrap
  | .ok _ => false

/-- True when a `Res` is an error of `Trap` kind. -/
def Res.isTrap : Res → Bool
  | .err e => e.isTrap
  | _ => false

/-- A module with a single directly self-recursive function: one empty
signature, one function whose body is `call 0; end`
(bytes `0x10 0x00 0x0B`), no imports.  This is the claim C2 scenario of a
direct self-recursive function with no other trapping condition. -/
def selfRecModule : Module :=
  { types := [⟨[], []⟩]
    functions := [⟨[], [0x10, 0x00, 0x0B]⟩]
    function_types := [0]
    imports := []
    element_segments := [] }

/-- The frame state `execute` sets up for `selfRecModule`'s function 0:
empty stack and globals, no locals, `pc = 0` on the three-byte body. -/
def selfRecState : IState :=
  { stack := []
    globals := []
    locals := []
    code := [0x10, 0x00, 0x0B]
    pc := 0
    labels := [] }

/-- A module used to exercise a completed nested call: one empty-signature
function whose body is a single `end` (byte `0x0B`), reachable both
directly and through table slot 0 via an element segment whose offset
expression is `i32.const 0; end`. -/
def callDemoModule : Module :=
  { types := [⟨[], []⟩]
    functions := [⟨[], [0x0B]⟩]
    function_types := [0]
    imports := []
    element_segments := [⟨0, [0x41, 0x00, 0x0B], [0]⟩] }

/-! ## Claim theorems -/

/-- Helper for claim C2: with any fuel budget, the directly self-recursive
function neither returns nor raises any error - each call immediately
re-enters itself and the observation horizon (`fuelOut`) is all that ever
stops it.  Proved for the instruction step, the body loop and the full
`execute` entry simultaneously by induction on the fuel. -/
theorem selfRec_runs_to_horizon (fuel : ℕ) :
    Interpreter.executeInstr selfRecModule fuel selfRecState = .fuelOut ∧
    Interpreter.execLoop selfRecModule fuel selfRecState = .fuelOut ∧
    Interpreter.execute selfRecModule fuel 0 [] [] = .fuelOut := by
  induction fuel with
  | zero => exact ⟨rfl, rfl, rfl⟩
  | succ n ih =>
    obtain ⟨h1, h2, h3⟩ := ih
    have h1l := h1
    simp only [selfRecState] at h1l
    refine ⟨?_, ?_, ?_⟩
    · simp [Interpreter.executeInstr, Interpreter.readVarUint32,
        Interpreter.readVarUint32Aux, selfRecState, shl32, h3]
    · simp [Interpreter.execLoop, selfRecState, h1l]
    · simpa [Interpreter.execute, Interpreter.setupFrame, Module.getFunctionType,
        Module.importedFunctionCount, selfRecModule, selfRecState] using h2

/-- C2: the claim states a maximum call-nesting depth of 1024 is enforced
with a trap when a direct self-recursive function reaches that depth.
The `CallStack` class does carry `MAX_DEPTH = 1024` and its `push` throws
once 1024 frames are held (last conjunct), but the interpreter's call
path never pushes a frame onto `call_stack_`: running the self-recursive
function `call 0; end` with ANY fuel budget - in particular budgets that
carry the native recursion far beyond depth 1024, since each nesting level
consumes only a bounded amount of fuel - produces neither a trap nor any
other error; the recursion is still running at every observation horizon.
The code therefore enforces no depth limit at all (the real program
recurses natively until the host process stack is exhausted). -/
theorem c2_no_call_depth_limit_enforced :
    (∀ fuel, Interpreter.execute selfRecModule fuel 0 [] [] = .fuelOut) ∧
    (∀ fuel, Res.isTrap (Interpreter.execute selfRecModule fuel 0 [] []) = false) ∧
    CallStack.push (List.replicate 1024 (CallFrame.mk 0 0 0 0)) (CallFrame.mk 0 0 0 0) =
      .error (.stackError "Call stack overflow: maximum depth exceeded") := by
  refine ⟨fun fuel => (selfRec_runs_to_horizon fuel).2.2, fun fuel => ?_, ?_⟩
  · rw [(selfRec_runs_to_horizon fuel).2.2]
    rfl
  · unfold CallStack.push
    rw [List.length_replicate]
    norm_num [CallStack.MAX_DEPTH]

/-- C1: the claim states that a taken branch preserves the top `arity`
operand-stack values while truncating the stack to
`stack_height + arity`.  Evaluating `Interpreter::branch` at the failing
input - one non-loop label of arity 1 recorded at stack height 0, with
the two values `i32 1` (below) and `i32 2` (on top) on the stack - shows
the truncation loop pops from the TOP, so the surviving value is the
bottom value `i32 1` and the top-of-stack value `i32 2` at the moment of
the branch is discarded, contradicting the claim (and the code's own
comment); the program counter and label removal do behave as claimed. -/
theorem c1_branch_discards_top_values :
    Interpreter.branch 0
        { pc := 50
          stack := [TypedValue.i32 2, TypedValue.i32 1]
          labels := [{ target_pc := 100, stack_height := 0, is_loop := false,
                       arity := 1 }] } =
      .ok { pc := 100, stack := [TypedValue.i32 1], labels := [] } ∧
    [TypedValue.i32 1] ≠ [TypedValue.i32 2] := by
  decide

/-- C3: the claim states the invariant `len(data) = current_pages * 65536`
after every successful operation up to and including 65536 pages.
Constructing a memory from `Limits{min = 65536}` succeeds, but the size
computation `current_pages_ * PAGE_SIZE` wraps in `uint32_t` arithmetic
(65536 * 65536 = 2^32 ≡ 0), so the data vector is resized to 0 bytes while
`current_pages` reports 65536, violating the invariant at the hard
limit. -/
theorem c3_page_size_computation_wraps_at_limit :
    (Memory.ofLimits { min := 65536, max := 0, has_max := false }).map
        (fun m => (m.current_pages, m.data.length)) = .ok (65536, 0) ∧
    65536 * Memory.PAGE_SIZE = 4294967296 ∧ (0 : ℕ) ≠ 4294967296 := by
  decide

/-- C4: the claim states the non-saturating trunc conversions trap on any
finite value whose truncation falls outside the destination range.  The
code (interpreter.cpp:1754-1832) guards only against NaN and infinity:
evaluating the conversions at finite out-of-range inputs (3*10^9 for
`i32.trunc_f32_s`, 2^32 for `i32.trunc_f32_u`, -3*10^9 for
`i32.trunc_f64_s`, 10^19 for `i64.trunc_f64_s` - each exactly
representable in its source float type) raises no trap at all; the result
is the undefined behaviour of an out-of-range `static_cast`. -/
theorem c4_finite_out_of_range_trunc_does_not_trap :
    i32TruncF32S (.Fin 3000000000) = .ok .ub ∧
    exceptIsTrap (i32TruncF32S (.Fin 3000000000)) = false ∧
    i32TruncF32U (.Fin 4294967296) = .ok .ub ∧
    i32TruncF64S (.Fin (-3000000000)) = .ok .ub ∧
    i64TruncF64S (.Fin 10000000000000000000) = .ok .ub := by
  decide

/-- C5: the claim states `varint32`/`varint64` obey the same length limits
as the unsigned codecs.  On the 6-byte input `80 80 80 80 80 00` the
unsigned reader raises the over-length error, but `readVarInt32` happily
consumes all 6 bytes and returns 0; likewise `readVarInt64` consumes an
11-byte encoding the unsigned 64-bit reader rejects.  (The final conjunct
confirms the sign-extension from bit 6 that the claim also mentions:
`0x7F` decodes to -1.) -/
theorem c5_signed_leb_has_no_length_limit :
    Decoder.readVarUint32 [0x80, 0x80, 0x80, 0x80, 0x80, 0x00] 0 =
      .error (.decoderError "Invalid LEB128 unsigned encoding (too many bytes)") ∧
    Decoder.readVarInt32 [0x80, 0x80, 0x80, 0x80, 0x80, 0x00] 0 = .ok (0, 6) ∧
    Decoder.readVarUint64
        [0x80, 0x80, 0x80, 0x80, 0x80, 0x80, 0x80, 0x80, 0x80, 0x80, 0x00] 0 =
      .error (.decoderError "Invalid LEB128 unsigned encoding (too many bytes)") ∧
    Decoder.readVarInt64
        [0x80, 0x80, 0x80, 0x80, 0x80, 0x80, 0x80, 0x80, 0x80, 0x80, 0x00] 0 =
      .ok (0, 11) ∧
    Decoder.readVarInt32 [0x7F] 0 = .ok (-1, 1) := by
  decide

/-- C6 counterexample: the claim states `global.set` on a non-mutable
global raises a Trap (the Wasm-defined runtime-error kind).  Evaluating
`Interpreter::setGlobal` on an immutable `i32` global shows the thrown
exception is an `InterpreterError`, not a `Trap` (the stored value is
indeed unchanged). -/
theorem c6_immutable_global_error_is_not_a_trap :
    Interpreter.setGlobal [{ type := .I32, is_mutable := false }]
        [TypedValue.i32 5] 0 (TypedValue.i32 7) =
      (.error (.interpreterError "Attempting to modify immutable global"),
       [TypedValue.i32 5]) ∧
    exceptIsTrap (Interpreter.setGlobal [{ type := .I32, is_mutable := false }]
        [TypedValue.i32 5] 0 (TypedValue.i32 7)).1 = false := by
  decide

/-- C6 amended: for every execution of `global.set i` where global `i` is
declared non-mutable (and `i` is in range of the instantiated globals),
the operation raises an `InterpreterError` - not a Trap - and the global's
stored value is unchanged. -/
theorem c6_amended_immutable_global_interpreter_error (mg : List Global)
    (gs : List TypedValue) (i : ℕ) (v : TypedValue) (g : Global)
    (hi : i < gs.length) (hg : mg[i]? = some g) (hmut : g.is_mutable = false) :
    Interpreter.setGlobal mg gs i v =
      (.error (.interpreterError "Attempting to modify immutable global"), gs) := by
  unfold Interpreter.setGlobal
  rw [if_neg (by omega), hg]
  simp [hmut]

/-- C6 amended witness: the amended theorem applied at a concrete
immutable global. -/
theorem c6_amended_witness :
    Interpreter.setGlobal [{ type := .I32, is_mutable := false }]
        [TypedValue.i64 9] 0 (TypedValue.i64 1) =
      (.error (.interpreterError "Attempting to modify immutable global"),
       [TypedValue.i64 9]) :=
  c6_amended_immutable_global_interpreter_error
    [{ type := .I32, is_mutable := false }] [TypedValue.i64 9] 0 (TypedValue.i64 1)
    { type := .I32, is_mutable := false } (by decide) (by decide) (by decide)

/-- C7: the claim states a successful `grow(delta)` leaves `size() = old +
delta` with the newly added `delta * 65536` bytes reading as zero, and
that exceeding the hard limit of 65536 pages returns -1.  Growing an
empty memory by exactly 65536 pages is accepted (the guard is
`new_pages > MAX_PAGES`), `grow` returns the old page count 0 and
`size()` reports 65536 pages - but the byte-size computation
`current_pages_ * PAGE_SIZE` wraps to 0 in `uint32_t`, so the data vector
is resized to 0 bytes and not a single newly added byte exists to read as
zero: `loadU8(0)` faults out of bounds. -/
theorem c7_grow_to_hard_limit_produces_empty_data :
    Memory.ofLimits { min := 0, max := 0, has_max := false } =
      .ok { data := [], limits := { min := 0, max := 0, has_max := false },
            current_pages := 0 } ∧
    Memory.grow 65536
        { data := [], limits := { min := 0, max := 0, has_max := false },
          current_pages := 0 } =
      (0, { data := [], limits := { min := 0, max := 0, has_max := false },
            current_pages := 65536 }) ∧
    Memory.loadU8
        { data := [], limits := { min := 0, max := 0, has_max := false },
          current_pages := 65536 } 0 =
      .error (.memoryError "Memory access out of bounds") := by
  decide

/-- Truncation toward zero of an integer-valued rational is that
integer. -/
theorem truncZ_intCast (z : ℤ) : truncZ (z : ℚ) = z := by
  unfold truncZ
  by_cases h : (0 : ℚ) ≤ (z : ℚ)
  · rw [if_pos h, Int.floor_intCast]
  · rw [if_neg h, Int.ceil_intCast]

/-- Truncation toward zero moves a value toward 0, so a rational strictly
between a negative and a positive integer bound truncates strictly between
them. -/
theorem truncZ_range (q : ℚ) (lo hi : ℤ) (hlo : lo < 0) (hhi : 0 < hi)
    (h1 : (lo : ℚ) < q) (h2 : q < (hi : ℚ)) :
    lo < truncZ q ∧ truncZ q < hi := by
  unfold truncZ
  by_cases h : 0 ≤ q
  · rw [if_pos h]
    exact ⟨lt_of_lt_of_le hlo (Int.floor_nonneg.mpr h), Int.floor_lt.mpr h2⟩
  · rw [if_neg h]
    exact ⟨Int.lt_ceil.mpr h1,
      lt_of_le_of_lt (Int.ceil_le.mpr (by exact_mod_cast le_of_not_le h)) hhi⟩

/-- In the band the saturation guards leave open, the signed 32-bit cast
of the truncated value is defined. -/
theorem castToI32_of_range (q : ℚ) (h1 : (-2147483649 : ℚ) < q)
    (h2 : q < 2147483648) : ∃ z, castToI32 (Fp.ftrunc (.Fin q)) = .val z := by
  have hr := truncZ_range q (-2147483649) 2147483648 (by norm_num) (by norm_num)
    (by exact_mod_cast h1) (by exact_mod_cast h2)
  refine ⟨truncZ q, ?_⟩
  simp only [Fp.ftrunc, castToI32, truncZ_intCast]
  rw [if_pos (by constructor <;> [omega; omega])]

/-- In the band the saturation guards leave open, the unsigned 32-bit cast
of the truncated value is defined. -/
theorem castToU32AsI32_of_range (q : ℚ) (h1 : (-1 : ℚ) < q)
    (h2 : q < 4294967296) : ∃ z, castToU32AsI32 (Fp.ftrunc (.Fin q)) = .val z := by
  have hr := truncZ_range q (-1) 4294967296 (by norm_num) (by norm_num)
    (by exact_mod_cast h1) (by exact_mod_cast h2)
  refine ⟨toInt32 (truncZ q).toNat, ?_⟩
  simp only [Fp.ftrunc, castToU32AsI32, truncZ_intCast]
  rw [if_pos (by constructor <;> [omega; omega])]

/-- In the band the saturation guards leave open, the signed 64-bit cast
of the truncated value is defined. -/
theorem castToI64_of_range (q : ℚ) (h1 : (-9223372036854775809 : ℚ) < q)
    (h2 : q < 9223372036854775808) :
    ∃ z, castToI64 (Fp.ftrunc (.Fin q)) = .val z := by
  have hr := truncZ_range q (-9223372036854775809) 9223372036854775808
    (by norm_num) (by norm_num) (by exact_mod_cast h1) (by exact_mod_cast h2)
  refine ⟨truncZ q, ?_⟩
  simp only [Fp.ftrunc, castToI64, truncZ_intCast]
  rw [if_pos (by constructor <;> [omega; omega])]

/-- In the band the saturation guards leave open, the unsigned 64-bit cast
of the truncated value is defined. -/
theorem castToU64AsI64_of_range (q : ℚ) (h1 : (-1 : ℚ) < q)
    (h2 : q < 18446744073709551616) :
    ∃ z, castToU64AsI64 (Fp.ftrunc (.Fin q)) = .val z := by
  have hr := truncZ_range q (-1) 18446744073709551616 (by norm_num) (by norm_num)
    (by exact_mod_cast h1) (by exact_mod_cast h2)
  refine ⟨toInt64 (truncZ q).toNat, ?_⟩
  simp only [Fp.ftrunc, castToU64AsI64, truncZ_intCast]
  rw [if_pos (by constructor <;> [omega; omega])]

/-- Specification of the common shape of the eight saturating conversion
cases: NaN gives 0; at or above the upper guard gives the chosen maximum;
at or below the lower guard gives the chosen minimum; and in between the
guarded cast always produces a defined value. -/
theorem satSpec (f cast : Fp → CastResult) (hi lo : ℚ) (maxv minv : ℤ)
    (hf : ∀ a, f a = if a.isNaN then .val 0 else if a.fge hi then .val maxv
      else if a.fle lo then .val minv else cast a.ftrunc)
    (hcast : ∀ q : ℚ, lo < q → q < hi → ∃ z, cast (Fp.ftrunc (.Fin q)) = .val z)
    (hlo : lo < 0) (hhi : 0 < hi) :
    ∀ a, ∃ z, f a = .val z ∧ (a.isNaN = true → z = 0) ∧
      (a.fge hi = true → z = maxv) ∧ (a.fle lo = true → z = minv) := by
  intro a
  rcases a with _ | neg | q
  · refine ⟨0, (hf _).trans (by simp [Fp.isNaN]), fun _ => rfl, ?_, ?_⟩
    · intro h; simp [Fp.fge] at h
    · intro h; simp [Fp.fle] at h
  · cases neg
    · refine ⟨maxv, (hf _).trans (by simp [Fp.isNaN, Fp.fge]), ?_, fun _ => rfl, ?_⟩
      · intro h; simp [Fp.isNaN] at h
      · intro h; simp [Fp.fle] at h
    · refine ⟨minv, (hf _).trans (by simp [Fp.isNaN, Fp.fge, Fp.fle]), ?_, ?_,
        fun _ => rfl⟩
      · intro h; simp [Fp.isNaN] at h
      · intro h; simp [Fp.fge] at h
  · by_cases hq1 : hi ≤ q
    · refine ⟨maxv, (hf _).trans (by simp [Fp.isNaN, Fp.fge, hq1]), ?_, fun _ => rfl,
        ?_⟩
      · intro h; simp [Fp.isNaN] at h
      · intro h
        have h2 : q ≤ lo := by simpa [Fp.fle] using h
        linarith
    · by_cases hq2 : q ≤ lo
      · refine ⟨minv, (hf _).trans (by simp [Fp.isNaN, Fp.fge, Fp.fle, hq1, hq2]),
          ?_, ?_, fun _ => rfl⟩
        · intro h; simp [Fp.isNaN] at h
        · intro h
          have h2 : hi ≤ q := by simpa [Fp.fge] using h
          linarith
      · obtain ⟨z, hz⟩ := hcast q (lt_of_not_le hq2) (lt_of_not_le hq1)
        refine ⟨z, (hf _).trans ?_, ?_, ?_, ?_⟩
        · simpa [Fp.isNaN, Fp.fge, Fp.fle, hq1, hq2] using hz
        · intro h; simp [Fp.isNaN] at h
        · intro h
          have h2 : hi ≤ q := by simpa [Fp.fge] using h
          exact absurd h2 hq1
        · intro h
          have h2 : q ≤ lo := by simpa [Fp.fle] using h
          exact absurd h2 hq2

/-- C8: every saturating conversion (0xFC sub-opcodes 0x00..0x07) is total
and never traps: for every float input it produces a defined integer
(never the undefined-behaviour outcome, and the functions return values
rather than throwing), mapping NaN to 0, inputs at or above the upper
guard (including +inf) to the signed maximum resp. the unsigned maximum
(pushed as the all-ones pattern -1), and inputs at or below the lower
guard (including -inf) to the signed minimum resp. 0. -/
theorem c8_saturating_total_and_saturates :
    (∀ a, ∃ z, i32TruncSatF32S a = .val z ∧ (a.isNaN = true → z = 0) ∧
      (a.fge 2147483648 = true → z = 2147483647) ∧
      (a.fle (-2147483649) = true → z = -2147483648)) ∧
    (∀ a, ∃ z, i32TruncSatF32U a = .val z ∧ (a.isNaN = true → z = 0) ∧
      (a.fge 4294967296 = true → z = -1) ∧
      (a.fle (-1) = true → z = 0)) ∧
    (∀ a, ∃ z, i32TruncSatF64S a = .val z ∧ (a.isNaN = true → z = 0) ∧
      (a.fge 2147483648 = true → z = 2147483647) ∧
      (a.fle (-2147483649) = true → z = -2147483648)) ∧
    (∀ a, ∃ z, i32TruncSatF64U a = .val z ∧ (a.isNaN = true → z = 0) ∧
      (a.fge 4294967296 = true → z = -1) ∧
      (a.fle (-1) = true → z = 0)) ∧
    (∀ a, ∃ z, i64TruncSatF32S a = .val z ∧ (a.isNaN = true → z = 0) ∧
      (a.fge 9223372036854775808 = true → z = 9223372036854775807) ∧
      (a.fle (-9223372036854775809) = true → z = -9223372036854775808)) ∧
    (∀ a, ∃ z, i64TruncSatF32U a = .val z ∧ (a.isNaN = true → z = 0) ∧
      (a.fge 18446744073709551616 = true → z = -1) ∧
      (a.fle (-1) = true → z = 0)) ∧
    (∀ a, ∃ z, i64TruncSatF64S a = .val z ∧ (a.isNaN = true → z = 0) ∧
      (a.fge 9223372036854775808 = true → z = 9223372036854775807) ∧
      (a.fle (-9223372036854775809) = true → z = -9223372036854775808)) ∧
    (∀ a, ∃ z, i64TruncSatF64U a = .val z ∧ (a.isNaN = true → z = 0) ∧
      (a.fge 18446744073709551616 = true → z = -1) ∧
      (a.fle (-1) = true → z = 0)) := by
  refine ⟨?_, ?_, ?_, ?_, ?_, ?_, ?_, ?_⟩
  · exact satSpec i32TruncSatF32S castToI32 2147483648 (-2147483649)
      2147483647 (-2147483648) (fun a => rfl) castToI32_of_range
      (by norm_num) (by norm_num)
  · exact satSpec i32TruncSatF32U castToU32AsI32 4294967296 (-1)
      (-1) 0 (fun a => rfl) castToU32AsI32_of_range (by norm_num) (by norm_num)
  · exact satSpec i32TruncSatF64S castToI32 2147483648 (-2147483649)
      2147483647 (-2147483648) (fun a => rfl) castToI32_of_range
      (by norm_num) (by norm_num)
  · exact satSpec i32TruncSatF64U castToU32AsI32 4294967296 (-1)
      (-1) 0 (fun a => rfl) castToU32AsI32_of_range (by norm_num) (by norm_num)
  · exact satSpec i64TruncSatF32S castToI64 9223372036854775808
      (-9223372036854775809) 9223372036854775807 (-9223372036854775808)
      (fun a => rfl) castToI64_of_range (by norm_num) (by norm_num)
  · exact satSpec i64TruncSatF32U castToU64AsI64 18446744073709551616 (-1)
      (-1) 0 (fun a => rfl) castToU64AsI64_of_range (by norm_num) (by norm_num)
  · exact satSpec i64TruncSatF64S castToI64 9223372036854775808
      (-9223372036854775809) 9223372036854775807 (-9223372036854775808)
      (fun a => rfl) castToI64_of_range (by norm_num) (by norm_num)
  · exact satSpec i64TruncSatF64U castToU64AsI64 18446744073709551616 (-1)
      (-1) 0 (fun a => rfl) castToU64AsI64_of_range (by norm_num) (by norm_num)

/-- C8 witness: the out-of-range input 3*10^9 saturates `i32.trunc_sat_f32_s`
to the signed maximum, and NaN saturates `i64.trunc_sat_f64_u` to 0. -/
theorem c8_witness :
    i32TruncSatF32S (.Fin 3000000000) = .val 2147483647 ∧
    i64TruncSatF64U .NaN = .val 0 := by
  constructor
  · obtain ⟨z, hz, _, hmax, _⟩ :=
      c8_saturating_total_and_saturates.1 (Fp.Fin 3000000000)
    rw [hmax (by decide)] at hz
    exact hz
  · obtain ⟨z, hz, hnan, _, _⟩ :=
      c8_saturating_total_and_saturates.2.2.2.2.2.2.2 Fp.NaN
    rw [hnan (by decide)] at hz
    exact hz

/-- C9: for every `call` (and every `call_indirect` that passes table
resolution and the signature check) whose callee execution completes
normally, the instruction's result state restores the caller's program
counter (positioned just past the call's immediates), bytecode, locals
vector and label stack to exactly their pre-call values; only the operand
stack and the globals are taken from the callee's final state. -/
theorem c9_call_and_call_indirect_restore_frame :
    (∀ (mod : Module) (fuel : ℕ) (st : IState) (func_index return_pc : ℕ)
        (after : IState),
      st.pc < st.code.length →
      st.code.getD st.pc 0 = 0x10 →
      Interpreter.readVarUint32 st.code (st.pc + 1) = .ok (func_index, return_pc) →
      Interpreter.execute mod fuel func_index st.stack st.globals = .ok after →
      Interpreter.executeInstr mod (fuel + 1) st =
        .ok { stack := after.stack, globals := after.globals,
              locals := st.locals, code := st.code, pc := return_pc,
              labels := st.labels }) ∧
    (∀ (mod : Module) (fuel : ℕ) (st : IState)
        (type_index pcA return_pc func_index : ℕ) (elem_index : ℤ)
        (stack1 : List TypedValue) (after : IState),
      st.pc < st.code.length →
      st.code.getD st.pc 0 = 0x11 →
      Interpreter.readVarUint32 st.code (st.pc + 1) = .ok (type_index, pcA) →
      Interpreter.readByte st.code pcA = .ok (0, return_pc) →
      Stack.popI32 st.stack = (.ok elem_index, stack1) →
      ¬ elem_index < 0 →
      Interpreter.resolveElem mod.element_segments elem_index.toNat =
        some func_index →
      Interpreter.checkIndirectType mod type_index func_index = .ok () →
      Interpreter.execute mod fuel func_index stack1 st.globals = .ok after →
      Interpreter.executeInstr mod (fuel + 1) st =
        .ok { stack := after.stack, globals := after.globals,
              locals := st.locals, code := st.code, pc := return_pc,
              labels := st.labels }) := by
  constructor
  · intro mod fuel st func_index return_pc after hpc hop hread hcall
    have hge : ¬ st.pc ≥ st.code.length := by omega
    simp only [Interpreter.executeInstr, hge, if_false, hop, hread, hcall]
    norm_num
  · intro mod fuel st type_index pcA return_pc func_index elem_index stack1 after
      hpc hop hread hbyte hpop hneg hres htype hcall
    have hge : ¬ st.pc ≥ st.code.length := by omega
    simp only [Interpreter.executeInstr, hge, if_false, hop, hread, hbyte, hpop,
      hres, htype, hcall]
    norm_num [hneg]

/-- C9 witness: a direct `call 0` and a `call_indirect` through table
slot 0 in `callDemoModule`, each completing normally, restore the caller's
locals, bytecode, labels and advanced program counter. -/
theorem c9_witness :
    Interpreter.executeInstr callDemoModule 4
        { stack := [TypedValue.i32 9], globals := [TypedValue.i32 4],
          locals := [TypedValue.i64 7], code := [0x10, 0x00, 0x0B], pc := 0,
          labels := [⟨5, 0, false, 0⟩] } =
      .ok { stack := [TypedValue.i32 9], globals := [TypedValue.i32 4],
            locals := [TypedValue.i64 7], code := [0x10, 0x00, 0x0B], pc := 2,
            labels := [⟨5, 0, false, 0⟩] } ∧
    Interpreter.executeInstr callDemoModule 4
        { stack := [TypedValue.i32 0, TypedValue.i32 8], globals := [],
          locals := [TypedValue.f32 (.Fin 1)], code := [0x11, 0x00, 0x00, 0x0B],
          pc := 0, labels := [] } =
      .ok { stack := [TypedValue.i32 8], globals := [],
            locals := [TypedValue.f32 (.Fin 1)], code := [0x11, 0x00, 0x00, 0x0B],
            pc := 3, labels := [] } := by
  constructor
  · exact c9_call_and_call_indirect_restore_frame.1 callDemoModule 3
      { stack := [TypedValue.i32 9], globals := [TypedValue.i32 4],
        locals := [TypedValue.i64 7], code := [0x10, 0x00, 0x0B], pc := 0,
        labels := [⟨5, 0, false, 0⟩] } 0 2
      { stack := [TypedValue.i32 9], globals := [TypedValue.i32 4], locals := [],
        code := [0x0B], pc := 1, labels := [] }
      (by decide) (by decide) (by decide) (by decide)
  · exact c9_call_and_call_indirect_restore_frame.2 callDemoModule 3
      { stack := [TypedValue.i32 0, TypedValue.i32 8], globals := [],
        locals := [TypedValue.f32 (.Fin 1)], code := [0x11, 0x00, 0x00, 0x0B],
        pc := 0, labels := [] } 0 2 3 0 0 [TypedValue.i32 8]
      { stack := [TypedValue.i32 8], globals := [], locals := [],
        code := [0x0B], pc := 1, labels := [] }
      (by decide) (by decide) (by decide) (by decide) (by decide) (by decide)
      (by decide) (by decide) (by decide)

/-- C10: each typed pop checks emptiness and then the top tag before any
`pop_back`; consequently a typed pop errors exactly when the stack is
empty or its top tag differs from the requested type, and whenever it
errors the operand stack is exactly what it was before the call. -/
theorem c10_typed_pop_error_preserves_stack (s : List TypedValue) :
    ((isErr (Stack.popI32 s).1 = true ↔ s.head?.map TypedValue.type ≠ some .I32) ∧
     (isErr (Stack.popI32 s).1 = true → (Stack.popI32 s).2 = s)) ∧
    ((isErr (Stack.popI64 s).1 = true ↔ s.head?.map TypedValue.type ≠ some .I64) ∧
     (isErr (Stack.popI64 s).1 = true → (Stack.popI64 s).2 = s)) ∧
    ((isErr (Stack.popF32 s).1 = true ↔ s.head?.map TypedValue.type ≠ some .F32) ∧
     (isErr (Stack.popF32 s).1 = true → (Stack.popF32 s).2 = s)) ∧
    ((isErr (Stack.popF64 s).1 = true ↔ s.head?.map TypedValue.type ≠ some .F64) ∧
     (isErr (Stack.popF64 s).1 = true → (Stack.popF64 s).2 = s)) := by
  rcases s with _ | ⟨v, rest⟩
  · simp [Stack.popI32, Stack.popI64, Stack.popF32, Stack.popF64,
      Stack.checkNotEmpty, isErr]
  · rcases v with x | x | x | x <;>
      simp [Stack.popI32, Stack.popI64, Stack.popF32, Stack.popF64,
        Stack.checkNotEmpty, Stack.checkType, TypedValue.type, isErr]

/-- C10 witness: popping an `i32` off a stack whose top is an `i64` errors
and leaves the stack unchanged. -/
theorem c10_witness :
    isErr (Stack.popI32 [TypedValue.i64 3]).1 = true ∧
    (Stack.popI32 [TypedValue.i64 3]).2 = [TypedValue.i64 3] := by
  have h := c10_typed_pop_error_preserves_stack [TypedValue.i64 3]
  have he : isErr (Stack.popI32 [TypedValue.i64 3]).1 = true :=
    h.1.1.mpr (by decide)
  exact ⟨he, h.1.2 he⟩

end WasmI
